import Mathlib

/-!
Verification of the portfolio-manager scoring core.

The definitions below are a shallow embedding of the two pure scoring
engines of the repository:

* the Cash Allocation Engine (`src/utils/cashAnalysis.ts`), and
* the multi-timeframe Valuation Risk engine (unnamed valuation module).

JavaScript numbers are modelled as rationals (`ℚ`); optional fields as
`Option ℚ`.  `Record<string, ...>` objects with a fixed key set are
modelled as association lists over an inductive key type.  Display-only
string fields (Korean `reason` texts, labels, timestamps) are omitted:
they carry no logic.  JS truthiness tests on numbers (`if (input.ma50)`)
are modelled as "present and nonzero"; `x ?? d` as `Option.getD x d`;
`Math.round` as floor of `x + 1/2` (JS rounds half away from zero towards
positive infinity for positive halves, which coincides on the scores
produced here).
-/

namespace PortfolioSpec

/-! ## Cash Allocation Engine (`cashAnalysis.ts`) -/

/-! ## Valuation Risk engine (unnamed valuation module) -/

inductive Timeframe
  | short
  | medium
  | long
deriving DecidableEq

inductive VRiskLevel
  | UNDERVALUED
  | FAIR_VALUE
  | ELEVATED
  | OVERVALUED
  | EXTREME
deriving DecidableEq

inductive AssetCategory
  | core
  | major
  | growth
  | speculative
deriving DecidableEq

/-- Output of one valuation normalizer (nameKo and reason omitted). -/
structure MetricAnalysis where
  name : String
  value : ℚ
  normalizedScore : ℚ
  weight : ℚ
  confidence : ℚ
deriving DecidableEq

/-- Sentiment record delivered by the sentiment API (timestamp omitted). -/
structure SentimentData where
  socialVolume : ℚ := 0
  socialSentiment : ℚ := 0
  twitterMentions : ℚ := 0
  redditActivity : ℚ := 0
  newsScore : ℚ := 0
  newsVolume : ℚ := 0
  fundingRate : ℚ := 0
  openInterest : ℚ := 0
  longShortRatio : ℚ := 0
  largeTransactions : ℚ := 0
  whaleAccumulation : ℚ := 0
deriving DecidableEq

/-- Input record of the valuation engine. -/
structure ValuationInputData where
  symbol : String
  mvrv : Option ℚ := none
  nvt : Option ℚ := none
  realizedPrice : Option ℚ := none
  exchangeNetflow : Option ℚ := none
  activeAddresses : Option ℚ := none
  activeAddresses30dAvg : Option ℚ := none
  currentPrice : ℚ
  ma50 : Option ℚ := none
  ma200 : Option ℚ := none
  ath : Option ℚ := none
  cycleLow : Option ℚ := none
  fearGreed : Option ℚ := none
  kimchiPremium : Option ℚ := none
  sentiment : Option SentimentData := none
deriving DecidableEq

/-- Per-timeframe metric weight table; 0 stands for a metric that is not
listed for the timeframe (an absent — falsy — key in the source). -/
structure TimeframeWeights where
  priceVsMa50 : ℚ := 0
  exchangeNetflow : ℚ := 0
  fearGreed : ℚ := 0
  kimchiPremium : ℚ := 0
  activeAddressRatio : ℚ := 0
  socialSentiment : ℚ := 0
  fundingRate : ℚ := 0
  mvrv : ℚ := 0
  priceVsMa200 : ℚ := 0
  nvt : ℚ := 0
  newsSentiment : ℚ := 0
  cyclePosition : ℚ := 0
  realizedPriceRatio : ℚ := 0

def TIMEFRAME_WEIGHTS : Timeframe → TimeframeWeights
  | Timeframe.short =>
    { priceVsMa50 := 0.20, exchangeNetflow := 0.15, fearGreed := 0.15,
      kimchiPremium := 0.10, activeAddressRatio := 0.10,
      socialSentiment := 0.15, fundingRate := 0.15 }
  | Timeframe.medium =>
    { mvrv := 0.22, priceVsMa200 := 0.18, nvt := 0.15,
      exchangeNetflow := 0.12, fearGreed := 0.13,
      socialSentiment := 0.10, newsSentiment := 0.10 }
  | Timeframe.long =>
    { mvrv := 0.28, nvt := 0.18, cyclePosition := 0.18,
      priceVsMa200 := 0.14, realizedPriceRatio := 0.14,
      socialSentiment := 0.08 }

def COMPOSITE_TIMEFRAME_WEIGHTS : Timeframe → ℚ
  | Timeframe.short => 0.20
  | Timeframe.medium => 0.35
  | Timeframe.long => 0.45

structure CategoryThresholds where
  mvrvOverbought : ℚ
  mvrvOversold : ℚ
  nvtOverbought : ℚ
  ma200DeviationMax : ℚ
  betaToBtc : ℚ

def CATEGORY_VALUATION_THRESHOLDS : AssetCategory → CategoryThresholds
  | AssetCategory.core =>
    { mvrvOverbought := 3.5, mvrvOversold := 1.0, nvtOverbought := 95,
      ma200DeviationMax := 80, betaToBtc := 1.0 }
  | AssetCategory.major =>
    { mvrvOverbought := 3.0, mvrvOversold := 0.8, nvtOverbought := 85,
      ma200DeviationMax := 100, betaToBtc := 1.3 }
  | AssetCategory.growth =>
    { mvrvOverbought := 2.5, mvrvOversold := 0.6, nvtOverbought := 75,
      ma200DeviationMax := 120, betaToBtc := 1.6 }
  | AssetCategory.speculative =>
    { mvrvOverbought := 2.0, mvrvOversold := 0.5, nvtOverbought := 65,
      ma200DeviationMax := 150, betaToBtc := 2.0 }

/-- The asset table of `cashAnalysis.ts` restricted to its category
column, which is all the valuation engine consumes. -/
def ASSET_CATEGORY_TABLE : List (String × AssetCategory) :=
  [("BTC", AssetCategory.core), ("ETH", AssetCategory.core),
   ("XRP", AssetCategory.major), ("SOL", AssetCategory.growth),
   ("DOGE", AssetCategory.speculative), ("ADA", AssetCategory.major),
   ("AVAX", AssetCategory.growth), ("DOT", AssetCategory.growth),
   ("MATIC", AssetCategory.growth), ("LINK", AssetCategory.major)]

/-- The classifier `getAssetCategory`: table lookup, unknown symbols are speculative. -/
def getAssetCategory (symbol : String) : AssetCategory :=
  (ASSET_CATEGORY_TABLE.lookup symbol).getD AssetCategory.speculative

def getValuationRiskLevel (score : ℚ) : VRiskLevel :=
  if score < 0.2 then VRiskLevel.UNDERVALUED
  else if score < 0.4 then VRiskLevel.FAIR_VALUE
  else if score < 0.6 then VRiskLevel.ELEVATED
  else if score < 0.8 then VRiskLevel.OVERVALUED
  else VRiskLevel.EXTREME

def clamp01 (value : ℚ) : ℚ := min 1 (max 0 value)

def analyzeSocialSentimentValuation (sentiment : ℚ) : MetricAnalysis :=
  { name := "socialSentiment", value := sentiment,
    normalizedScore := clamp01 ((sentiment + 100) / 200), weight := 0, confidence := 1 }

def analyzeNewsSentimentValuation (newsScore : ℚ) : MetricAnalysis :=
  { name := "newsSentiment", value := newsScore,
    normalizedScore := clamp01 ((newsScore + 100) / 200), weight := 0, confidence := 0.8 }

def analyzeFundingRateValuation (fundingRate : ℚ) : MetricAnalysis :=
  { name := "fundingRate", value := fundingRate,
    normalizedScore :=
      if fundingRate < -0.05 then 0.1
      else if fundingRate < 0 then 0.3
      else if fundingRate < 0.03 then 0.5
      else if fundingRate < 0.08 then 0.75
      else 0.9,
    weight := 0, confidence := 1 }

def analyzeMVRVValuation (mvrv : ℚ) (category : AssetCategory) : MetricAnalysis :=
  let thresholds := CATEGORY_VALUATION_THRESHOLDS category
  let raw : ℚ :=
    if mvrv < thresholds.mvrvOversold then 0
    else if mvrv < 1.5 then
      ((mvrv - thresholds.mvrvOversold) / (1.5 - thresholds.mvrvOversold)) * 0.3
    else if mvrv < 2.5 then 0.3 + ((mvrv - 1.5) / 1.0) * 0.3
    else if mvrv < thresholds.mvrvOverbought then
      0.6 + ((mvrv - 2.5) / (thresholds.mvrvOverbought - 2.5)) * 0.3
    else 0.9 + min 0.1 (((mvrv - thresholds.mvrvOverbought) / 2) * 0.1)
  { name := "mvrv", value := mvrv, normalizedScore := clamp01 raw,
    weight := 0, confidence := 1 }

def analyzeNVTValuation (nvt : ℚ) (category : AssetCategory) : MetricAnalysis :=
  let thresholds := CATEGORY_VALUATION_THRESHOLDS category
  let raw : ℚ :=
    if nvt < 45 then (nvt / 45) * 0.2
    else if nvt < 65 then 0.2 + ((nvt - 45) / 20) * 0.3
    else if nvt < thresholds.nvtOverbought then
      0.5 + ((nvt - 65) / (thresholds.nvtOverbought - 65)) * 0.35
    else 0.85 + min 0.15 (((nvt - thresholds.nvtOverbought) / 30) * 0.15)
  { name := "nvt", value := nvt, normalizedScore := clamp01 raw,
    weight := 0, confidence := 1 }

inductive MAType
  | ma50
  | ma200
deriving DecidableEq

def maTypeName : MAType → String
  | MAType.ma50 => "priceVsMa50"
  | MAType.ma200 => "priceVsMa200"

def analyzePriceVsMA (currentPrice ma : ℚ) (maType : MAType)
    (category : AssetCategory) : MetricAnalysis :=
  if ma = 0 then
    { name := maTypeName maType, value := 0, normalizedScore := 0.5,
      weight := 0, confidence := 0 }
  else
    let deviation := ((currentPrice - ma) / ma) * 100
    let maxDeviation := (CATEGORY_VALUATION_THRESHOLDS category).ma200DeviationMax
    let raw : ℚ :=
      if deviation < -30 then max 0 ((deviation + 50) / 20) * 0.1
      else if deviation < -10 then 0.1 + ((deviation + 30) / 20) * 0.2
      else if deviation < 30 then 0.3 + ((deviation + 10) / 40) * 0.3
      else if deviation < maxDeviation then
        0.6 + ((deviation - 30) / (maxDeviation - 30)) * 0.3
      else 0.9 + min 0.1 (((deviation - maxDeviation) / 50) * 0.1)
    { name := maTypeName maType, value := deviation, normalizedScore := clamp01 raw,
      weight := 0, confidence := 1 }

def analyzeExchangeNetflowValuation (netflow : ℚ) : MetricAnalysis :=
  { name := "exchangeNetflow", value := netflow,
    normalizedScore :=
      if netflow < -10000 then 0.1
      else if netflow < -5000 then 0.25
      else if netflow < 5000 then 0.5
      else if netflow < 10000 then 0.75
      else 0.9,
    weight := 0, confidence := 1 }

def analyzeFearGreedValuation (value : ℚ) : MetricAnalysis :=
  { name := "fearGreed", value := value, normalizedScore := value / 100,
    weight := 0, confidence := 1 }

def analyzeKimchiPremiumValuation (premium : ℚ) : MetricAnalysis :=
  { name := "kimchiPremium", value := premium,
    normalizedScore :=
      if premium < -2 then 0.1
      else if premium < 2 then 0.4
      else if premium < 5 then 0.6
      else if premium < 10 then 0.8
      else 0.95,
    weight := 0, confidence := 1 }

def analyzeActiveAddressRatio (current average30d : ℚ) : MetricAnalysis :=
  if average30d = 0 then
    { name := "activeAddressRatio", value := 0, normalizedScore := 0.5,
      weight := 0, confidence := 0 }
  else
    let ratio := (current / average30d) * 100
    { name := "activeAddressRatio", value := ratio,
      normalizedScore :=
        if ratio < 70 then 0.2
        else if ratio < 90 then 0.35
        else if ratio < 110 then 0.5
        else if ratio < 130 then 0.65
        else 0.8,
      weight := 0, confidence := 1 }

def analyzeCyclePosition (currentPrice ath cycleLow : ℚ) : MetricAnalysis :=
  if ath = 0 ∨ cycleLow = 0 ∨ ath ≤ cycleLow then
    { name := "cyclePosition", value := 0, normalizedScore := 0.5,
      weight := 0, confidence := 0 }
  else
    let cycleRange := ath - cycleLow
    let positionPercent := ((currentPrice - cycleLow) / cycleRange) * 100
    { name := "cyclePosition", value := positionPercent,
      normalizedScore := clamp01 (positionPercent / 100),
      weight := 0, confidence := 0.8 }

def analyzeRealizedPriceRatio (currentPrice realizedPrice : ℚ) : MetricAnalysis :=
  if realizedPrice = 0 then
    { name := "realizedPriceRatio", value := 0, normalizedScore := 0.5,
      weight := 0, confidence := 0 }
  else
    let ratio := currentPrice / realizedPrice
    { name := "realizedPriceRatio", value := ratio,
      normalizedScore :=
        if ratio < 0.8 then 0.05
        else if ratio < 1.0 then 0.15
        else if ratio < 1.5 then 0.35
        else if ratio < 2.5 then 0.55
        else if ratio < 3.5 then 0.75
        else 0.9,
      weight := 0, confidence := 1 }

/-- An accumulation block guarded by `weights.x && input.x !== undefined`. -/
def entryOpt (w : ℚ) (o : Option ℚ) (f : ℚ → MetricAnalysis) : List MetricAnalysis :=
  match o with
  | some v => if w ≠ 0 then [{ f v with weight := w }] else []
  | none => []

/-- An accumulation block whose input is tested for JS truthiness
(`weights.x && input.x`): present and nonzero. -/
def entryTruthy (w : ℚ) (o : Option ℚ) (f : ℚ → MetricAnalysis) : List MetricAnalysis :=
  match o with
  | some v => if w ≠ 0 ∧ v ≠ 0 then [{ f v with weight := w }] else []
  | none => []

/-- An accumulation block guarded by the truthiness of two inputs. -/
def entryTruthy2 (w : ℚ) (o₁ o₂ : Option ℚ) (f : ℚ → ℚ → MetricAnalysis) :
    List MetricAnalysis :=
  match o₁, o₂ with
  | some a, some b => if w ≠ 0 ∧ a ≠ 0 ∧ b ≠ 0 then [{ f a b with weight := w }] else []
  | _, _ => []

/-- An accumulation block reading one field of the optional sentiment
record (`weights.x && input.sentiment?.field !== undefined`). -/
def entrySentiment (w : ℚ) (o : Option SentimentData) (f : SentimentData → MetricAnalysis) :
    List MetricAnalysis :=
  match o with
  | some s => if w ≠ 0 then [{ f s with weight := w }] else []
  | none => []

/-- The metrics pushed by `calculateTimeframeAssessment`, in source
order; each block mirrors one guarded accumulation statement. -/
def metricEntries (timeframe : Timeframe) (input : ValuationInputData)
    (category : AssetCategory) : List MetricAnalysis :=
  let weights := TIMEFRAME_WEIGHTS timeframe
  entryOpt weights.mvrv input.mvrv (fun v => analyzeMVRVValuation v category) ++
  entryOpt weights.nvt input.nvt (fun v => analyzeNVTValuation v category) ++
  entryTruthy weights.priceVsMa50 input.ma50
    (fun v => analyzePriceVsMA input.currentPrice v MAType.ma50 category) ++
  entryTruthy weights.priceVsMa200 input.ma200
    (fun v => analyzePriceVsMA input.currentPrice v MAType.ma200 category) ++
  entryOpt weights.exchangeNetflow input.exchangeNetflow analyzeExchangeNetflowValuation ++
  entryOpt weights.fearGreed input.fearGreed analyzeFearGreedValuation ++
  entryOpt weights.kimchiPremium input.kimchiPremium analyzeKimchiPremiumValuation ++
  entryTruthy2 weights.activeAddressRatio input.activeAddresses input.activeAddresses30dAvg
    analyzeActiveAddressRatio ++
  entryTruthy2 weights.cyclePosition input.ath input.cycleLow
    (fun a l => analyzeCyclePosition input.currentPrice a l) ++
  entryTruthy weights.realizedPriceRatio input.realizedPrice
    (fun v => analyzeRealizedPriceRatio input.currentPrice v) ++
  entrySentiment weights.socialSentiment input.sentiment
    (fun s => analyzeSocialSentimentValuation s.socialSentiment) ++
  entrySentiment weights.newsSentiment input.sentiment
    (fun s => analyzeNewsSentimentValuation s.newsScore) ++
  entrySentiment weights.fundingRate input.sentiment
    (fun s => analyzeFundingRateValuation s.fundingRate)

def totalWeightOf (metrics : List MetricAnalysis) : ℚ :=
  (metrics.map fun m => m.weight).sum

def weightedScoreOf (metrics : List MetricAnalysis) : ℚ :=
  (metrics.map fun m => m.normalizedScore * m.weight * m.confidence).sum

def weightedConfidenceOf (metrics : List MetricAnalysis) : ℚ :=
  (metrics.map fun m => m.weight * m.confidence).sum

structure TimeframeAssessment where
  timeframe : Timeframe
  overvaluationScore : ℚ
  riskLevel : VRiskLevel
  metrics : List MetricAnalysis
  confidence : ℚ
deriving DecidableEq

def calculateTimeframeAssessment (timeframe : Timeframe) (input : ValuationInputData)
    (category : AssetCategory) : TimeframeAssessment :=
  let metrics := metricEntries timeframe input category
  let totalWeight := totalWeightOf metrics
  let overvaluationScore := if totalWeight > 0 then weightedScoreOf metrics / totalWeight else 0.5
  { timeframe := timeframe
    overvaluationScore := overvaluationScore
    riskLevel := getValuationRiskLevel overvaluationScore
    metrics := metrics
    confidence := if totalWeight > 0 then weightedConfidenceOf metrics / totalWeight else 0 }

inductive Direction
  | bullish
  | neutral
  | bearish
deriving DecidableEq

inductive Severity
  | low
  | medium
  | high
deriving DecidableEq

/-- A key driver (reason text omitted; the metric label keeps only the
metric name, the Korean timeframe tag being display-only). -/
structure ValuationDriver where
  metric : String
  contribution : ℚ
  direction : Direction
  severity : Severity
deriving DecidableEq

/-- A pooled metric paired with its computed contribution. -/
structure ContribMetric where
  base : MetricAnalysis
  contribution : ℚ
deriving DecidableEq

def mkContribMetric (m : MetricAnalysis) : ContribMetric :=
  { base := m, contribution := |m.normalizedScore - 0.5| * m.weight * m.confidence }

/-- Descending order on contribution, used by the sort. -/
def contribGE (a b : ContribMetric) : Prop := b.contribution ≤ a.contribution

instance : DecidableRel contribGE := fun a b =>
  inferInstanceAs (Decidable (b.contribution ≤ a.contribution))

instance : IsTotal ContribMetric contribGE :=
  ⟨fun a b => (le_total b.contribution a.contribution).imp (fun h => h) (fun h => h)⟩

instance : IsTrans ContribMetric contribGE :=
  ⟨fun _ _ _ h₁ h₂ => le_trans h₂ h₁⟩

def toDriver (m : ContribMetric) : ValuationDriver :=
  { metric := m.base.name
    contribution := m.contribution
    direction :=
      if m.base.normalizedScore < 0.4 then Direction.bullish
      else if m.base.normalizedScore > 0.6 then Direction.bearish
      else Direction.neutral
    severity :=
      if m.contribution > 0.15 then Severity.high
      else if m.contribution > 0.08 then Severity.medium
      else Severity.low }

/-- The driver extractor `extractKeyDrivers`: pool the metrics of the three timeframes,
attach contributions, sort descending by contribution (the source sorts
with the comparator `b.contribution - a.contribution`; a stable sort by
the same order is used here), keep the top 5. -/
def extractKeyDrivers (shortTerm mediumTerm longTerm : TimeframeAssessment) :
    List ValuationDriver :=
  let allMetrics := shortTerm.metrics ++ mediumTerm.metrics ++ longTerm.metrics
  let withContribution := allMetrics.map mkContribMetric
  let sorted := List.insertionSort contribGE withContribution
  (sorted.take 5).map toDriver

inductive RecAction
  | ACCUMULATE
  | HOLD
  | REDUCE
  | EXIT
deriving DecidableEq

inductive Urgency
  | low
  | medium
  | high
deriving DecidableEq

/-- Recommendation record (reason text omitted). -/
structure Recommendation where
  action : RecAction
  urgency : Urgency
deriving DecidableEq

def generateRecommendation (score : ℚ) (drivers : List ValuationDriver) : Recommendation :=
  let highSeverityBearish :=
    (drivers.filter fun d =>
      decide (d.direction = Direction.bearish ∧ d.severity = Severity.high)).length
  if score < 0.25 then
    { action := RecAction.ACCUMULATE,
      urgency := if score < 0.15 then Urgency.high else Urgency.medium }
  else if score < 0.45 then { action := RecAction.ACCUMULATE, urgency := Urgency.low }
  else if score < 0.6 then { action := RecAction.HOLD, urgency := Urgency.low }
  else if score < 0.75 then
    { action := RecAction.REDUCE,
      urgency := if highSeverityBearish ≥ 2 then Urgency.high else Urgency.medium }
  else { action := RecAction.EXIT, urgency := Urgency.high }

structure ConfidenceInfo where
  overall : ℚ
  dataCompleteness : ℚ
  isEstimated : Bool
deriving DecidableEq

/-- Main result record (timestamp and estimation-method text omitted). -/
structure ValuationRiskResult where
  symbol : String
  compositeScore : ℚ
  riskLevel : VRiskLevel
  shortTerm : TimeframeAssessment
  mediumTerm : TimeframeAssessment
  longTerm : TimeframeAssessment
  keyDrivers : List ValuationDriver
  confidence : ConfidenceInfo
  recommendation : Recommendation
deriving DecidableEq

def calculateValuationRisk (input : ValuationInputData) : ValuationRiskResult :=
  let category := getAssetCategory input.symbol
  let shortTerm := calculateTimeframeAssessment Timeframe.short input category
  let mediumTerm := calculateTimeframeAssessment Timeframe.medium input category
  let longTerm := calculateTimeframeAssessment Timeframe.long input category
  let compositeScore :=
    shortTerm.overvaluationScore * COMPOSITE_TIMEFRAME_WEIGHTS Timeframe.short +
    mediumTerm.overvaluationScore * COMPOSITE_TIMEFRAME_WEIGHTS Timeframe.medium +
    longTerm.overvaluationScore * COMPOSITE_TIMEFRAME_WEIGHTS Timeframe.long
  let keyDrivers := extractKeyDrivers shortTerm mediumTerm longTerm
  let allMetrics := shortTerm.metrics ++ mediumTerm.metrics ++ longTerm.metrics
  let dataCompleteness : ℚ :=
    if allMetrics.length > 0 then
      ((allMetrics.filter fun m => decide (m.confidence > 0)).length : ℚ) / allMetrics.length
    else 0
  let overallConfidence :=
    shortTerm.confidence * COMPOSITE_TIMEFRAME_WEIGHTS Timeframe.short +
    mediumTerm.confidence * COMPOSITE_TIMEFRAME_WEIGHTS Timeframe.medium +
    longTerm.confidence * COMPOSITE_TIMEFRAME_WEIGHTS Timeframe.long
  { symbol := input.symbol
    compositeScore := compositeScore
    riskLevel := getValuationRiskLevel compositeScore
    shortTerm := shortTerm
    mediumTerm := mediumTerm
    longTerm := longTerm
    keyDrivers := keyDrivers
    confidence :=
      { overall := overallConfidence
        dataCompleteness := dataCompleteness
        isEstimated := decide (input.symbol ≠ "BTC") }
    recommendation := generateRecommendation compositeScore keyDrivers }

/-- The metric blocks of `calculateTimeframeAssessment` other than the
MVRV block, evaluated on the base input; none of them reads `mvrv`. -/
def restEntriesAfterMvrv (timeframe : Timeframe) (input : ValuationInputData)
    (category : AssetCategory) : List MetricAnalysis :=
  let weights := TIMEFRAME_WEIGHTS timeframe
  entryOpt weights.nvt input.nvt (fun v => analyzeNVTValuation v category) ++
  entryTruthy weights.priceVsMa50 input.ma50
    (fun v => analyzePriceVsMA input.currentPrice v MAType.ma50 category) ++
  entryTruthy weights.priceVsMa200 input.ma200
    (fun v => analyzePriceVsMA input.currentPrice v MAType.ma200 category) ++
  entryOpt weights.exchangeNetflow input.exchangeNetflow analyzeExchangeNetflowValuation ++
  entryOpt weights.fearGreed input.fearGreed analyzeFearGreedValuation ++
  entryOpt weights.kimchiPremium input.kimchiPremium analyzeKimchiPremiumValuation ++
  entryTruthy2 weights.activeAddressRatio input.activeAddresses input.activeAddresses30dAvg
    analyzeActiveAddressRatio ++
  entryTruthy2 weights.cyclePosition input.ath input.cycleLow
    (fun a l => analyzeCyclePosition input.currentPrice a l) ++
  entryTruthy weights.realizedPriceRatio input.realizedPrice
    (fun v => analyzeRealizedPriceRatio input.currentPrice v) ++
  entrySentiment weights.socialSentiment input.sentiment
    (fun s => analyzeSocialSentimentValuation s.socialSentiment) ++
  entrySentiment weights.newsSentiment input.sentiment
    (fun s => analyzeNewsSentimentValuation s.newsScore) ++
  entrySentiment weights.fundingRate input.sentiment
    (fun s => analyzeFundingRateValuation s.fundingRate)

/-- An input carrying only a symbol and a current price. -/
def priceOnlyInput (symbol : String) (currentPrice : ℚ) : ValuationInputData :=
  { symbol := symbol, currentPrice := currentPrice }

/-- Membership of a rational in the unit interval. -/
def inUnit (q : ℚ) : Prop := 0 ≤ q ∧ q ≤ 1

/-- All twelve valuation normalizers return a normalized score in the
unit interval at the given arguments. -/
def allNormalizersInUnit (category : AssetCategory) (maType : MAType)
    (mvrv nvt price ma netflow fearGreed premium current average30d ath cycleLow
     realizedPrice social news fundingRate : ℚ) : Prop :=
  inUnit (analyzeMVRVValuation mvrv category).normalizedScore ∧
  inUnit (analyzeNVTValuation nvt category).normalizedScore ∧
  inUnit (analyzePriceVsMA price ma maType category).normalizedScore ∧
  inUnit (analyzeExchangeNetflowValuation netflow).normalizedScore ∧
  inUnit (analyzeFearGreedValuation fearGreed).normalizedScore ∧
  inUnit (analyzeKimchiPremiumValuation premium).normalizedScore ∧
  inUnit (analyzeActiveAddressRatio current average30d).normalizedScore ∧
  inUnit (analyzeCyclePosition price ath cycleLow).normalizedScore ∧
  inUnit (analyzeRealizedPriceRatio price realizedPrice).normalizedScore ∧
  inUnit (analyzeSocialSentimentValuation social).normalizedScore ∧
  inUnit (analyzeNewsSentimentValuation news).normalizedScore ∧
  inUnit (analyzeFundingRateValuation fundingRate).normalizedScore

/-- A base input for concrete monotonicity witnesses. -/
def c4Input : ValuationInputData := { symbol := "BTC", currentPrice := 50000 }

/-! ## Claims -/

/-- Two assessments agree whenever their metric lists agree. -/
theorem assessment_congr (timeframe : Timeframe) (i₁ i₂ : ValuationInputData)
    (category : AssetCategory)
    (h : metricEntries timeframe i₁ category = metricEntries timeframe i₂ category) :
    calculateTimeframeAssessment timeframe i₁ category =
      calculateTimeframeAssessment timeframe i₂ category := by
  simp only [calculateTimeframeAssessment, h]

/-- Action labels attached by the per-indicator analyzers. -/
inductive ActionType
  | REDUCE_CASH
  | NEUTRAL
  | INCREASE_CASH
  | MAX_CASH
deriving DecidableEq

/-- Risk buckets of the cash engine. -/
inductive CashRiskLevel
  | AGGRESSIVE
  | GROWTH
  | BALANCED
  | CAUTIOUS
  | DEFENSIVE
  | PRESERVATION
deriving DecidableEq

/-- Result of one cash-engine indicator analyzer (reason text omitted). -/
structure IndicatorAnalysis where
  score : ℚ
  action : ActionType
  value : ℚ
deriving DecidableEq

/-- Keys of the cash-engine indicator record. -/
inductive IKey
  | fearGreed
  | mvrv
  | kimchiPremium
  | exchangeFlow
  | dxy
  | marketTrend
  | volatility
  | nvt
deriving DecidableEq

/-- The fixed `WEIGHTS` table of the cash engine (note: it contains a
`dxy` key that never gets an analysis, and no `nvt` key). -/
def CASH_WEIGHTS : List (IKey × ℚ) :=
  [(IKey.fearGreed, 0.20), (IKey.mvrv, 0.15), (IKey.kimchiPremium, 0.10),
   (IKey.exchangeFlow, 0.15), (IKey.dxy, 0.10), (IKey.marketTrend, 0.15),
   (IKey.volatility, 0.15)]

def analyzeFearGreed (value : ℚ) : IndicatorAnalysis :=
  if value ≤ 25 then ⟨20, ActionType.REDUCE_CASH, value⟩
  else if value ≤ 45 then ⟨40, ActionType.NEUTRAL, value⟩
  else if value ≤ 55 then ⟨50, ActionType.NEUTRAL, value⟩
  else if value ≤ 75 then ⟨70, ActionType.INCREASE_CASH, value⟩
  else ⟨90, ActionType.MAX_CASH, value⟩

def analyzeMVRV (value : ℚ) : IndicatorAnalysis :=
  if value < 1 then ⟨10, ActionType.REDUCE_CASH, value⟩
  else if value < 2 then ⟨30, ActionType.REDUCE_CASH, value⟩
  else if value < 3 then ⟨50, ActionType.NEUTRAL, value⟩
  else if value < 4 then ⟨75, ActionType.INCREASE_CASH, value⟩
  else ⟨95, ActionType.MAX_CASH, value⟩

def analyzeKimchiPremium (value : ℚ) : IndicatorAnalysis :=
  if value < -2 then ⟨20, ActionType.REDUCE_CASH, value⟩
  else if value < 2 then ⟨50, ActionType.NEUTRAL, value⟩
  else if value < 5 then ⟨60, ActionType.NEUTRAL, value⟩
  else if value < 10 then ⟨80, ActionType.INCREASE_CASH, value⟩
  else ⟨95, ActionType.MAX_CASH, value⟩

def analyzeExchangeFlow (netFlow : ℚ) : IndicatorAnalysis :=
  if netFlow < -10000 then ⟨20, ActionType.REDUCE_CASH, netFlow⟩
  else if netFlow < -5000 then ⟨35, ActionType.REDUCE_CASH, netFlow⟩
  else if netFlow < 5000 then ⟨50, ActionType.NEUTRAL, netFlow⟩
  else if netFlow < 10000 then ⟨70, ActionType.INCREASE_CASH, netFlow⟩
  else ⟨90, ActionType.MAX_CASH, netFlow⟩

def analyzeMarketTrend (currentPrice ma200 : ℚ) : IndicatorAnalysis :=
  if ma200 = 0 then ⟨50, ActionType.NEUTRAL, 0⟩
  else
    let deviation := ((currentPrice - ma200) / ma200) * 100
    if deviation < -30 then ⟨15, ActionType.REDUCE_CASH, deviation⟩
    else if deviation < -10 then ⟨30, ActionType.REDUCE_CASH, deviation⟩
    else if deviation < 30 then ⟨50, ActionType.NEUTRAL, deviation⟩
    else if deviation < 60 then ⟨70, ActionType.INCREASE_CASH, deviation⟩
    else ⟨90, ActionType.MAX_CASH, deviation⟩

def analyzeVolatility (vix : ℚ) : IndicatorAnalysis :=
  if vix < 15 then ⟨40, ActionType.NEUTRAL, vix⟩
  else if vix < 20 then ⟨50, ActionType.NEUTRAL, vix⟩
  else if vix < 30 then ⟨65, ActionType.INCREASE_CASH, vix⟩
  else if vix < 40 then ⟨80, ActionType.INCREASE_CASH, vix⟩
  else ⟨90, ActionType.MAX_CASH, vix⟩

def analyzeNVT (nvt : ℚ) : IndicatorAnalysis :=
  if nvt < 45 then ⟨25, ActionType.REDUCE_CASH, nvt⟩
  else if nvt < 65 then ⟨50, ActionType.NEUTRAL, nvt⟩
  else if nvt < 90 then ⟨70, ActionType.INCREASE_CASH, nvt⟩
  else ⟨85, ActionType.MAX_CASH, nvt⟩

/-- Optional inputs of `calculateRecommendedCashAllocation`. -/
structure IndicatorInputs where
  fearGreed : Option ℚ := none
  mvrv : Option ℚ := none
  kimchiPremium : Option ℚ := none
  exchangeFlow : Option ℚ := none
  currentPrice : Option ℚ := none
  ma200 : Option ℚ := none
  vix : Option ℚ := none
  nvt : Option ℚ := none
  activeAddresses : Option ℚ := none
  activeAddresses30dAvg : Option ℚ := none
deriving DecidableEq

/-- The `analyses` record built by `calculateRecommendedCashAllocation`:
six base entries with `??`-substituted default values, plus an `nvt`
entry added only when `indicators.nvt` is present. -/
def analysesOf (i : IndicatorInputs) : List (IKey × IndicatorAnalysis) :=
  [(IKey.fearGreed, analyzeFearGreed (i.fearGreed.getD 50)),
   (IKey.mvrv, analyzeMVRV (i.mvrv.getD 2)),
   (IKey.kimchiPremium, analyzeKimchiPremium (i.kimchiPremium.getD 0)),
   (IKey.exchangeFlow, analyzeExchangeFlow (i.exchangeFlow.getD 0)),
   (IKey.marketTrend,
     analyzeMarketTrend (i.currentPrice.getD 0)
       (i.ma200.getD (i.currentPrice.getD 0))),
   (IKey.volatility, analyzeVolatility (i.vix.getD 20))]
  ++ (match i.nvt with
      | some n => [(IKey.nvt, analyzeNVT n)]
      | none => [])

/-- JavaScript `Math.round` on a rational. -/
def jsRound (q : ℚ) : ℤ := ⌊q + 1/2⌋

/-- Property access `record[key]` on an association list keyed by `IKey`. -/
def lookupKey {α : Type} (k : IKey) : List (IKey × α) → Option α
  | [] => none
  | (k', a) :: rest => if k = k' then some a else lookupKey k rest

/-- One line of the result breakdown. -/
structure BreakdownEntry where
  indicator : IKey
  score : ℚ
  weight : ℚ
  contribution : ℚ
  action : ActionType
deriving DecidableEq

/-- Result record of the cash engine (strategy text omitted). -/
structure CashRecommendation where
  score : ℤ
  recommendedCash : ℚ
  riskLevel : CashRiskLevel
  analyses : List (IKey × IndicatorAnalysis)
  breakdown : List BreakdownEntry
deriving DecidableEq

def calculateRecommendedCashAllocation (i : IndicatorInputs) : CashRecommendation :=
  let analyses := analysesOf i
  let totals : ℚ × ℚ :=
    CASH_WEIGHTS.foldl
      (fun acc kw =>
        match lookupKey kw.1 analyses with
        | some a => (acc.1 + a.score * kw.2, acc.2 + kw.2)
        | none => acc)
      ((0 : ℚ), (0 : ℚ))
  let finalScore : ℚ := if totals.2 > 0 then totals.1 / totals.2 else 50
  let rc : ℚ × CashRiskLevel :=
    if finalScore ≤ 25 then (10, CashRiskLevel.AGGRESSIVE)
    else if finalScore ≤ 40 then (20, CashRiskLevel.GROWTH)
    else if finalScore ≤ 55 then (25, CashRiskLevel.BALANCED)
    else if finalScore ≤ 70 then (35, CashRiskLevel.CAUTIOUS)
    else if finalScore ≤ 85 then (45, CashRiskLevel.DEFENSIVE)
    else (55, CashRiskLevel.PRESERVATION)
  { score := jsRound finalScore
    recommendedCash := rc.1
    riskLevel := rc.2
    analyses := analyses
    breakdown := analyses.map fun ka =>
      { indicator := ka.1
        score := ka.2.score
        weight := (lookupKey ka.1 CASH_WEIGHTS).getD 0
        contribution := ka.2.score * ((lookupKey ka.1 CASH_WEIGHTS).getD 0)
        action := ka.2.action } }

/-- The concrete input of claim C1. -/
def c1Input : IndicatorInputs :=
  { fearGreed := some 90, mvrv := some 4.5, kimchiPremium := some 12,
    exchangeFlow := some 15000, vix := some 45 }

/-- Claim C1, as stated, is false: on the input fearGreed=90, mvrv=4.5,
kimchiPremium=12, exchangeFlow=15000, vix=45 (all else absent) the engine
does not return PRESERVATION with 55% cash. -/
theorem C1_counterexample :
    ¬ ((calculateRecommendedCashAllocation c1Input).riskLevel = CashRiskLevel.PRESERVATION ∧
       (calculateRecommendedCashAllocation c1Input).recommendedCash = 55) := by
  simp +decide only [calculateRecommendedCashAllocation, analysesOf, analyzeFearGreed,
    analyzeMVRV, analyzeKimchiPremium, analyzeExchangeFlow, analyzeMarketTrend,
    analyzeVolatility, CASH_WEIGHTS, jsRound, c1Input, lookupKey, Option.getD_some,
    Option.getD_none, List.foldl, List.map]
  norm_num

/-- Claim C1 amended: on that input the engine returns DEFENSIVE with
recommendedCash 45 (the weighted average is 1525/18, about 84.7, which is
at most 85; the reported integer score rounds to 85).  The absent
price/MA data still contributes a neutral marketTrend analysis of score
50 through default substitution, and the weight denominator is 0.9
because the `dxy` weight finds no analysis. -/
theorem C1_corrected :
    (calculateRecommendedCashAllocation c1Input).riskLevel = CashRiskLevel.DEFENSIVE ∧
    (calculateRecommendedCashAllocation c1Input).recommendedCash = 45 ∧
    (calculateRecommendedCashAllocation c1Input).score = 85 := by
  simp +decide only [calculateRecommendedCashAllocation, analysesOf, analyzeFearGreed,
    analyzeMVRV, analyzeKimchiPremium, analyzeExchangeFlow, analyzeMarketTrend,
    analyzeVolatility, CASH_WEIGHTS, jsRound, c1Input, lookupKey, Option.getD_some,
    Option.getD_none, List.foldl, List.map]
  norm_num [jsRound]

/-- The weighted-average score of the cash engine never depends on the
`nvt` input: the scoring loop iterates over the keys of `CASH_WEIGHTS`,
which has no `nvt` key. -/
theorem cash_score_nvt_invariant (i : IndicatorInputs) (n₁ n₂ : Option ℚ) :
    (calculateRecommendedCashAllocation { i with nvt := n₁ }).score =
      (calculateRecommendedCashAllocation { i with nvt := n₂ }).score := by
  cases n₁ <;> cases n₂ <;> rfl

/-- Claim C2, as stated, is false: there is no pair of inputs differing
only in `nvt` whose cash-engine scores differ. -/
theorem C2_counterexample :
    ¬ ∃ (i : IndicatorInputs) (n₁ n₂ : Option ℚ),
      (calculateRecommendedCashAllocation { i with nvt := n₁ }).score ≠
        (calculateRecommendedCashAllocation { i with nvt := n₂ }).score := by
  rintro ⟨i, n₁, n₂, h⟩
  exact h (cash_score_nvt_invariant i n₁ n₂)

/-- Claim C2 amended: when `nvt` is present its analysis is added to the
`analyses` record and shows up in the breakdown, but with weight 0 and
contribution 0 (`WEIGHTS` has no `nvt` entry), and the weighted-average
score is invariant in `nvt`. -/
theorem C2_corrected (i : IndicatorInputs) (n : ℚ) (n' : Option ℚ) :
    ((calculateRecommendedCashAllocation { i with nvt := some n }).score =
       (calculateRecommendedCashAllocation { i with nvt := n' }).score) ∧
    (∃ b ∈ (calculateRecommendedCashAllocation { i with nvt := some n }).breakdown,
       b.indicator = IKey.nvt ∧ b.score = (analyzeNVT n).score ∧
       b.weight = 0 ∧ b.contribution = 0) := by
  refine ⟨cash_score_nvt_invariant i (some n) n', ?_⟩
  refine ⟨{ indicator := IKey.nvt, score := (analyzeNVT n).score, weight := 0,
             contribution := (analyzeNVT n).score * 0, action := (analyzeNVT n).action }, ?_, ?_⟩
  · simp +decide only [calculateRecommendedCashAllocation, analysesOf, CASH_WEIGHTS,
      lookupKey, List.map, List.mem_append, List.mem_cons, List.mem_singleton]
    tauto
  · norm_num

/-- Modelled from the spec: a cash-engine score in which an absent
indicator is skipped entirely — its bucketed score and weight are simply
left out of the weighted average (...absence means "skip this metric",
never zero-substitution...).  The six weighted indicators of §4.6 are
used with their fixed weights; the market-trend indicator requires both
a current price and a 200-day MA; with no indicators at all the neutral
score 50 is returned.  The per-indicator bucketed scorers are those of
the source. -/
def cashScoreSpecSkip (i : IndicatorInputs) : ℚ :=
  let parts : List (ℚ × ℚ) :=
    (match i.fearGreed with
     | some v => [((analyzeFearGreed v).score, 0.20)]
     | none => []) ++
    (match i.mvrv with
     | some v => [((analyzeMVRV v).score, 0.15)]
     | none => []) ++
    (match i.kimchiPremium with
     | some v => [((analyzeKimchiPremium v).score, 0.10)]
     | none => []) ++
    (match i.exchangeFlow with
     | some v => [((analyzeExchangeFlow v).score, 0.15)]
     | none => []) ++
    (match i.currentPrice, i.ma200 with
     | some p, some ma => [((analyzeMarketTrend p ma).score, 0.15)]
     | _, _ => []) ++
    (match i.vix with
     | some v => [((analyzeVolatility v).score, 0.15)]
     | none => [])
  let totalWeight := (parts.map fun p => p.2).sum
  if totalWeight > 0 then (parts.map fun p => p.1 * p.2).sum / totalWeight else 50

/-- The concrete input of the C3 counterexample: only fearGreed present. -/
def c3Input : IndicatorInputs := { fearGreed := some 90 }

/-- Claim C3, as stated, is false: with only fearGreed=90 present, skip
semantics would give the weighted average 90, but the engine substitutes
defaults for every absent indicator and returns the integer score 61
(exact average 1105/18). -/
theorem C3_counterexample :
    cashScoreSpecSkip c3Input = 90 ∧
    (calculateRecommendedCashAllocation c3Input).score = 61 := by
  constructor
  · simp +decide only [cashScoreSpecSkip, analyzeFearGreed, c3Input, List.map, List.append_nil,
      List.nil_append]
    norm_num
  · simp +decide only [calculateRecommendedCashAllocation, analysesOf, analyzeFearGreed,
      analyzeMVRV, analyzeKimchiPremium, analyzeExchangeFlow, analyzeMarketTrend,
      analyzeVolatility, CASH_WEIGHTS, jsRound, c3Input, lookupKey, Option.getD_some,
      Option.getD_none, List.foldl, List.map]
    norm_num [jsRound]

/-- Fills every optional indicator the engine defaults with its explicit
default value (`fearGreed ?? 50`, `mvrv ?? 2`, `kimchiPremium ?? 0`,
`exchangeFlow ?? 0`, `currentPrice ?? 0`, `ma200 ?? currentPrice ?? 0`,
`vix ?? 20`); `nvt` is left untouched since it has no default. -/
def fillCashDefaults (i : IndicatorInputs) : IndicatorInputs :=
  { fearGreed := some (i.fearGreed.getD 50)
    mvrv := some (i.mvrv.getD 2)
    kimchiPremium := some (i.kimchiPremium.getD 0)
    exchangeFlow := some (i.exchangeFlow.getD 0)
    currentPrice := some (i.currentPrice.getD 0)
    ma200 := some (i.ma200.getD (i.currentPrice.getD 0))
    vix := some (i.vix.getD 20)
    nvt := i.nvt
    activeAddresses := i.activeAddresses
    activeAddresses30dAvg := i.activeAddresses30dAvg }

/-- Claim C3 amended: an absent optional indicator is not skipped; it is
replaced by a substituted default value.  Replacing every absent
indicator by its default explicitly leaves the engine result unchanged,
so absent indicators contribute to the weighted average exactly like
present default values. -/
theorem C3_corrected (i : IndicatorInputs) :
    calculateRecommendedCashAllocation (fillCashDefaults i) =
      calculateRecommendedCashAllocation i := by
  simp only [calculateRecommendedCashAllocation, analysesOf, fillCashDefaults,
    Option.getD_some]

/-- Claim C5: with every optional indicator absent, the composite score
is exactly 0.5 and the risk level is ELEVATED (0.5 is below the strict
0.6 bound of the ELEVATED bucket). -/
theorem C5_minimal_input (symbol : String) (price : ℚ) :
    (calculateValuationRisk (priceOnlyInput symbol price)).compositeScore = 0.5 ∧
    (calculateValuationRisk (priceOnlyInput symbol price)).riskLevel = VRiskLevel.ELEVATED := by
  have hempty : ∀ t c, metricEntries t (priceOnlyInput symbol price) c = [] := by
    intro t c
    simp [metricEntries, entryOpt, entryTruthy, entryTruthy2, entrySentiment, priceOnlyInput]
  have hassess : ∀ t c,
      (calculateTimeframeAssessment t (priceOnlyInput symbol price) c).overvaluationScore = 0.5 := by
    intro t c
    simp [calculateTimeframeAssessment, hempty, totalWeightOf]
  constructor
  · simp only [calculateValuationRisk, COMPOSITE_TIMEFRAME_WEIGHTS, hassess]
    norm_num
  · simp only [calculateValuationRisk, COMPOSITE_TIMEFRAME_WEIGHTS, hassess]
    norm_num [getValuationRiskLevel]

/-- Claim C6: a timeframe assessment with an empty metric list has the
neutral overvaluation score 0.5 and confidence 0. -/
theorem C6_no_metrics (timeframe : Timeframe) (input : ValuationInputData)
    (category : AssetCategory)
    (h : (calculateTimeframeAssessment timeframe input category).metrics = []) :
    (calculateTimeframeAssessment timeframe input category).overvaluationScore = 0.5 ∧
    (calculateTimeframeAssessment timeframe input category).confidence = 0 := by
  have hm : metricEntries timeframe input category = [] := h
  simp [calculateTimeframeAssessment, hm, totalWeightOf]

/-- Witness for C6 at a concrete metric-free input. -/
theorem C6_no_metrics_witness :
    (calculateTimeframeAssessment Timeframe.short (priceOnlyInput "BTC" 100)
        AssetCategory.core).metrics = [] ∧
    ((calculateTimeframeAssessment Timeframe.short (priceOnlyInput "BTC" 100)
        AssetCategory.core).overvaluationScore = 0.5 ∧
     (calculateTimeframeAssessment Timeframe.short (priceOnlyInput "BTC" 100)
        AssetCategory.core).confidence = 0) :=
  ⟨rfl, C6_no_metrics Timeframe.short (priceOnlyInput "BTC" 100) AssetCategory.core rfl⟩

/-- Claim C10: a zero value in any of the seven truthiness-guarded
fields produces exactly the assessment obtained with the field absent:
the metric is skipped before its normalizer runs. -/
theorem C10_zero_equals_absent (timeframe : Timeframe) (input : ValuationInputData)
    (category : AssetCategory) :
    calculateTimeframeAssessment timeframe { input with ma50 := some 0 } category =
      calculateTimeframeAssessment timeframe { input with ma50 := none } category ∧
    calculateTimeframeAssessment timeframe { input with ma200 := some 0 } category =
      calculateTimeframeAssessment timeframe { input with ma200 := none } category ∧
    calculateTimeframeAssessment timeframe { input with realizedPrice := some 0 } category =
      calculateTimeframeAssessment timeframe { input with realizedPrice := none } category ∧
    calculateTimeframeAssessment timeframe { input with ath := some 0 } category =
      calculateTimeframeAssessment timeframe { input with ath := none } category ∧
    calculateTimeframeAssessment timeframe { input with cycleLow := some 0 } category =
      calculateTimeframeAssessment timeframe { input with cycleLow := none } category ∧
    calculateTimeframeAssessment timeframe { input with activeAddresses := some 0 } category =
      calculateTimeframeAssessment timeframe { input with activeAddresses := none } category ∧
    calculateTimeframeAssessment timeframe
        { input with activeAddresses30dAvg := some 0 } category =
      calculateTimeframeAssessment timeframe
        { input with activeAddresses30dAvg := none } category := by
  refine ⟨?_, ?_, ?_, ?_, ?_, ?_, ?_⟩ <;> apply assessment_congr
  · simp [metricEntries, entryTruthy]
  · simp [metricEntries, entryTruthy]
  · simp [metricEntries, entryTruthy]
  · cases hlow : input.cycleLow <;> simp [metricEntries, entryTruthy2, hlow]
  · cases hath : input.ath <;> simp [metricEntries, entryTruthy2, hath]
  · cases havg : input.activeAddresses30dAvg <;> simp [metricEntries, entryTruthy2, havg]
  · cases hcur : input.activeAddresses <;> simp [metricEntries, entryTruthy2, hcur]

/-- The function `clamp01` always lands in the unit interval. -/
theorem clamp01_inUnit (value : ℚ) : inUnit (clamp01 value) :=
  ⟨le_min (by norm_num) (le_max_left 0 value), min_le_left 1 (max 0 value)⟩

/-- Claim C7: every valuation normalizer returns a normalized score in
[0, 1] for every input in its stated domain (fearGreed needs its 0..100
domain; every other normalizer is bounded on all rationals), at every
category and breakpoint. -/
theorem C7_normalizers_in_unit (category : AssetCategory) (maType : MAType)
    (mvrv nvt price ma netflow fearGreed premium current average30d ath cycleLow
     realizedPrice social news fundingRate : ℚ)
    (hfg₀ : 0 ≤ fearGreed) (hfg₁ : fearGreed ≤ 100) :
    allNormalizersInUnit category maType mvrv nvt price ma netflow fearGreed premium
      current average30d ath cycleLow realizedPrice social news fundingRate := by
  refine ⟨?_, ?_, ?_, ?_, ?_, ?_, ?_, ?_, ?_, ?_, ?_, ?_⟩
  · exact clamp01_inUnit _
  · exact clamp01_inUnit _
  · by_cases hma : ma = 0
    · norm_num [analyzePriceVsMA, hma, inUnit]
    · simpa [analyzePriceVsMA, hma] using clamp01_inUnit _
  · simp only [analyzeExchangeNetflowValuation, inUnit]
    split_ifs <;> norm_num
  · simp only [analyzeFearGreedValuation, inUnit]
    constructor
    · positivity
    · rw [div_le_one (by norm_num)]
      linarith
  · simp only [analyzeKimchiPremiumValuation, inUnit]
    split_ifs <;> norm_num
  · by_cases havg : average30d = 0
    · norm_num [analyzeActiveAddressRatio, havg, inUnit]
    · simp only [analyzeActiveAddressRatio, havg, if_false, inUnit]
      split_ifs <;> norm_num
  · by_cases hcp : ath = 0 ∨ cycleLow = 0 ∨ ath ≤ cycleLow
    · norm_num [analyzeCyclePosition, hcp, inUnit]
    · simpa [analyzeCyclePosition, hcp] using clamp01_inUnit _
  · by_cases hrp : realizedPrice = 0
    · norm_num [analyzeRealizedPriceRatio, hrp, inUnit]
    · simp only [analyzeRealizedPriceRatio, hrp, if_false, inUnit]
      split_ifs <;> norm_num
  · exact clamp01_inUnit _
  · exact clamp01_inUnit _
  · simp only [analyzeFundingRateValuation, inUnit]
    split_ifs <;> norm_num

/-- Witness for C7: all normalizers evaluated at breakpoint inputs
(MVRV 1.5, NVT 65, MA deviation 30, fearGreed at the domain edge 100,
active-address ratio 110, funding 0.08, and so on). -/
theorem C7_normalizers_in_unit_witness :
    ((0 : ℚ) ≤ 100 ∧ (100 : ℚ) ≤ 100) ∧
    allNormalizersInUnit AssetCategory.core MAType.ma50 1.5 65 52000 40000 10000 100 5
      110 100 69000 15500 20000 (-100) 100 0.08 :=
  ⟨⟨by norm_num, by norm_num⟩,
   C7_normalizers_in_unit AssetCategory.core MAType.ma50 1.5 65 52000 40000 10000 100 5
     110 100 69000 15500 20000 (-100) 100 0.08 (by norm_num) (by norm_num)⟩

/-- Claim C9: the recommendation follows the fixed compositeScore table,
with REDUCE urgency escalated to high exactly when at least two key
drivers are bearish with high severity. -/
theorem C9_recommendation_table (score : ℚ) (drivers : List ValuationDriver) :
    (score < 0.15 →
      generateRecommendation score drivers = ⟨RecAction.ACCUMULATE, Urgency.high⟩) ∧
    (0.15 ≤ score → score < 0.25 →
      generateRecommendation score drivers = ⟨RecAction.ACCUMULATE, Urgency.medium⟩) ∧
    (0.25 ≤ score → score < 0.45 →
      generateRecommendation score drivers = ⟨RecAction.ACCUMULATE, Urgency.low⟩) ∧
    (0.45 ≤ score → score < 0.6 →
      generateRecommendation score drivers = ⟨RecAction.HOLD, Urgency.low⟩) ∧
    (0.6 ≤ score → score < 0.75 →
      generateRecommendation score drivers =
        ⟨RecAction.REDUCE,
         if (drivers.filter fun d =>
              decide (d.direction = Direction.bearish ∧ d.severity = Severity.high)).length ≥ 2
         then Urgency.high else Urgency.medium⟩) ∧
    (0.75 ≤ score →
      generateRecommendation score drivers = ⟨RecAction.EXIT, Urgency.high⟩) := by
  refine ⟨?_, ?_, ?_, ?_, ?_, ?_⟩ <;>
    · intros
      simp only [generateRecommendation]
      split_ifs <;> first | rfl | linarith

/-- Witness for C9 at score 0.7 with two high-severity bearish drivers. -/
theorem C9_recommendation_table_witness :
    ((0.6 : ℚ) ≤ 0.7 ∧ (0.7 : ℚ) < 0.75) ∧
    generateRecommendation 0.7
        [⟨"mvrv", 0.2, Direction.bearish, Severity.high⟩,
         ⟨"nvt", 0.18, Direction.bearish, Severity.high⟩] =
      ⟨RecAction.REDUCE, Urgency.high⟩ := by
  refine ⟨⟨by norm_num, by norm_num⟩, ?_⟩
  have h := (C9_recommendation_table 0.7
    [⟨"mvrv", 0.2, Direction.bearish, Severity.high⟩,
     ⟨"nvt", 0.18, Direction.bearish, Severity.high⟩]).2.2.2.2.1
    (by norm_num) (by norm_num)
  rw [h]
  norm_num

/-- Claim C8: key drivers number at most 5, come sorted in descending
order of contribution, and each driver's contribution is exactly
|normalizedScore − 0.5| × weight × confidence of an originating metric
from the three pooled timeframes. -/
theorem C8_key_drivers (shortTerm mediumTerm longTerm : TimeframeAssessment) :
    (extractKeyDrivers shortTerm mediumTerm longTerm).length ≤ 5 ∧
    List.Sorted (fun a b : ValuationDriver => b.contribution ≤ a.contribution)
      (extractKeyDrivers shortTerm mediumTerm longTerm) ∧
    ∀ d ∈ extractKeyDrivers shortTerm mediumTerm longTerm,
      ∃ x ∈ shortTerm.metrics ++ mediumTerm.metrics ++ longTerm.metrics,
        d.contribution = |x.normalizedScore - 0.5| * x.weight * x.confidence := by
  refine ⟨?_, ?_, ?_⟩
  · simp only [extractKeyDrivers, List.length_map, List.length_take]
    exact le_trans (min_le_left _ _) (le_refl 5)
  · have hs : List.Sorted contribGE
        (List.insertionSort contribGE
          ((shortTerm.metrics ++ mediumTerm.metrics ++ longTerm.metrics).map mkContribMetric)) :=
      List.sorted_insertionSort contribGE _
    have ht : List.Sorted contribGE
        ((List.insertionSort contribGE
          ((shortTerm.metrics ++ mediumTerm.metrics ++ longTerm.metrics).map
            mkContribMetric)).take 5) :=
      List.Pairwise.sublist (List.take_sublist 5 _) hs
    simp only [extractKeyDrivers, List.Sorted, List.pairwise_map]
    exact ht.imp fun h => h
  · intro d hd
    simp only [extractKeyDrivers, List.mem_map] at hd
    obtain ⟨cm, hcm, rfl⟩ := hd
    have h₁ : cm ∈ List.insertionSort contribGE
        ((shortTerm.metrics ++ mediumTerm.metrics ++ longTerm.metrics).map mkContribMetric) :=
      List.take_subset 5 _ hcm
    have h₂ : cm ∈ (shortTerm.metrics ++ mediumTerm.metrics ++ longTerm.metrics).map
        mkContribMetric :=
      (List.perm_insertionSort contribGE _).subset h₁
    obtain ⟨x, hx, rfl⟩ := List.mem_map.mp h₂
    exact ⟨x, hx, rfl⟩

theorem clamp01_mono {a b : ℚ} (h : a ≤ b) : clamp01 a ≤ clamp01 b :=
  min_le_min le_rfl (max_le_max le_rfl h)

set_option maxHeartbeats 1000000 in
theorem analyzeMVRV_mono (category : AssetCategory) {m₁ m₂ : ℚ} (h : m₁ ≤ m₂) :
    (analyzeMVRVValuation m₁ category).normalizedScore ≤
      (analyzeMVRVValuation m₂ category).normalizedScore := by
  cases category <;>
    · simp only [analyzeMVRVValuation, CATEGORY_VALUATION_THRESHOLDS]
      apply clamp01_mono
      simp only [min_def]
      split_ifs <;> first | linarith | (norm_num; linarith)

theorem analyzeMVRV_confidence (m : ℚ) (category : AssetCategory) :
    (analyzeMVRVValuation m category).confidence = 1 := rfl

theorem totalWeightOf_append (a b : List MetricAnalysis) :
    totalWeightOf (a ++ b) = totalWeightOf a + totalWeightOf b := by
  simp [totalWeightOf]

theorem entryOpt_weight_nonneg (w : ℚ) (o : Option ℚ) (f : ℚ → MetricAnalysis)
    (hw : 0 ≤ w) : 0 ≤ totalWeightOf (entryOpt w o f) := by
  cases o with
  | none => simp [entryOpt, totalWeightOf]
  | some v =>
    by_cases hw0 : w = 0
    · simp [entryOpt, hw0, totalWeightOf]
    · simp [entryOpt, hw0, totalWeightOf, hw]

theorem entryTruthy_weight_nonneg (w : ℚ) (o : Option ℚ) (f : ℚ → MetricAnalysis)
    (hw : 0 ≤ w) : 0 ≤ totalWeightOf (entryTruthy w o f) := by
  cases o with
  | none => simp [entryTruthy, totalWeightOf]
  | some v =>
    by_cases hg : w ≠ 0 ∧ v ≠ 0
    · simp [entryTruthy, hg, totalWeightOf, hw]
    · simp [entryTruthy, if_neg hg, totalWeightOf]

theorem entryTruthy2_weight_nonneg (w : ℚ) (o₁ o₂ : Option ℚ)
    (f : ℚ → ℚ → MetricAnalysis) (hw : 0 ≤ w) :
    0 ≤ totalWeightOf (entryTruthy2 w o₁ o₂ f) := by
  cases o₁ with
  | none => simp [entryTruthy2, totalWeightOf]
  | some a =>
    cases o₂ with
    | none => simp [entryTruthy2, totalWeightOf]
    | some b =>
      by_cases hg : w ≠ 0 ∧ a ≠ 0 ∧ b ≠ 0
      · simp [entryTruthy2, hg, totalWeightOf, hw]
      · simp [entryTruthy2, if_neg hg, totalWeightOf]

theorem entrySentiment_weight_nonneg (w : ℚ) (o : Option SentimentData)
    (f : SentimentData → MetricAnalysis) (hw : 0 ≤ w) :
    0 ≤ totalWeightOf (entrySentiment w o f) := by
  cases o with
  | none => simp [entrySentiment, totalWeightOf]
  | some s =>
    by_cases hw0 : w = 0
    · simp [entrySentiment, hw0, totalWeightOf]
    · simp [entrySentiment, hw0, totalWeightOf, hw]

theorem tw_nvt_nonneg (t : Timeframe) : 0 ≤ (TIMEFRAME_WEIGHTS t).nvt := by
  cases t <;> norm_num [TIMEFRAME_WEIGHTS]

theorem tw_ma50_nonneg (t : Timeframe) : 0 ≤ (TIMEFRAME_WEIGHTS t).priceVsMa50 := by
  cases t <;> norm_num [TIMEFRAME_WEIGHTS]

theorem tw_ma200_nonneg (t : Timeframe) : 0 ≤ (TIMEFRAME_WEIGHTS t).priceVsMa200 := by
  cases t <;> norm_num [TIMEFRAME_WEIGHTS]

theorem tw_netflow_nonneg (t : Timeframe) : 0 ≤ (TIMEFRAME_WEIGHTS t).exchangeNetflow := by
  cases t <;> norm_num [TIMEFRAME_WEIGHTS]

theorem tw_fearGreed_nonneg (t : Timeframe) : 0 ≤ (TIMEFRAME_WEIGHTS t).fearGreed := by
  cases t <;> norm_num [TIMEFRAME_WEIGHTS]

theorem tw_kimchi_nonneg (t : Timeframe) : 0 ≤ (TIMEFRAME_WEIGHTS t).kimchiPremium := by
  cases t <;> norm_num [TIMEFRAME_WEIGHTS]

theorem tw_aar_nonneg (t : Timeframe) : 0 ≤ (TIMEFRAME_WEIGHTS t).activeAddressRatio := by
  cases t <;> norm_num [TIMEFRAME_WEIGHTS]

theorem tw_cycle_nonneg (t : Timeframe) : 0 ≤ (TIMEFRAME_WEIGHTS t).cyclePosition := by
  cases t <;> norm_num [TIMEFRAME_WEIGHTS]

theorem tw_rpr_nonneg (t : Timeframe) : 0 ≤ (TIMEFRAME_WEIGHTS t).realizedPriceRatio := by
  cases t <;> norm_num [TIMEFRAME_WEIGHTS]

theorem tw_social_nonneg (t : Timeframe) : 0 ≤ (TIMEFRAME_WEIGHTS t).socialSentiment := by
  cases t <;> norm_num [TIMEFRAME_WEIGHTS]

theorem tw_news_nonneg (t : Timeframe) : 0 ≤ (TIMEFRAME_WEIGHTS t).newsSentiment := by
  cases t <;> norm_num [TIMEFRAME_WEIGHTS]

theorem tw_funding_nonneg (t : Timeframe) : 0 ≤ (TIMEFRAME_WEIGHTS t).fundingRate := by
  cases t <;> norm_num [TIMEFRAME_WEIGHTS]

theorem tw_mvrv_nonneg (t : Timeframe) : 0 ≤ (TIMEFRAME_WEIGHTS t).mvrv := by
  cases t <;> norm_num [TIMEFRAME_WEIGHTS]

theorem restWeight_nonneg (t : Timeframe) (i : ValuationInputData) (c : AssetCategory) :
    0 ≤ totalWeightOf (restEntriesAfterMvrv t i c) := by
  simp only [restEntriesAfterMvrv, totalWeightOf_append]
  refine add_nonneg (add_nonneg (add_nonneg (add_nonneg (add_nonneg (add_nonneg (add_nonneg
    (add_nonneg (add_nonneg (add_nonneg (add_nonneg ?_ ?_) ?_) ?_) ?_) ?_) ?_) ?_) ?_) ?_) ?_) ?_
  · exact entryOpt_weight_nonneg _ _ _ (tw_nvt_nonneg t)
  · exact entryTruthy_weight_nonneg _ _ _ (tw_ma50_nonneg t)
  · exact entryTruthy_weight_nonneg _ _ _ (tw_ma200_nonneg t)
  · exact entryOpt_weight_nonneg _ _ _ (tw_netflow_nonneg t)
  · exact entryOpt_weight_nonneg _ _ _ (tw_fearGreed_nonneg t)
  · exact entryOpt_weight_nonneg _ _ _ (tw_kimchi_nonneg t)
  · exact entryTruthy2_weight_nonneg _ _ _ _ (tw_aar_nonneg t)
  · exact entryTruthy2_weight_nonneg _ _ _ _ (tw_cycle_nonneg t)
  · exact entryTruthy_weight_nonneg _ _ _ (tw_rpr_nonneg t)
  · exact entrySentiment_weight_nonneg _ _ _ (tw_social_nonneg t)
  · exact entrySentiment_weight_nonneg _ _ _ (tw_news_nonneg t)
  · exact entrySentiment_weight_nonneg _ _ _ (tw_funding_nonneg t)

theorem metricEntries_mvrv_split (t : Timeframe) (i : ValuationInputData)
    (c : AssetCategory) (o : Option ℚ) :
    metricEntries t { i with mvrv := o } c =
      entryOpt (TIMEFRAME_WEIGHTS t).mvrv o (fun v => analyzeMVRVValuation v c) ++
        restEntriesAfterMvrv t i c := by
  simp only [metricEntries, restEntriesAfterMvrv, List.append_assoc]


set_option maxHeartbeats 800000 in
theorem assessment_mvrv_mono (t : Timeframe) (i : ValuationInputData)
    (c : AssetCategory) {m₁ m₂ : ℚ} (h : m₁ ≤ m₂) :
    (calculateTimeframeAssessment t { i with mvrv := some m₁ } c).overvaluationScore ≤
      (calculateTimeframeAssessment t { i with mvrv := some m₂ } c).overvaluationScore := by
  by_cases hw : (TIMEFRAME_WEIGHTS t).mvrv = 0
  · have he : ∀ m : ℚ, metricEntries t { i with mvrv := some m } c =
        restEntriesAfterMvrv t i c := by
      intro m
      rw [metricEntries_mvrv_split]
      simp [entryOpt, hw]
    simp [calculateTimeframeAssessment, he]
  · have hwpos : 0 < (TIMEFRAME_WEIGHTS t).mvrv :=
      lt_of_le_of_ne (tw_mvrv_nonneg t) (Ne.symm hw)
    have hrest := restWeight_nonneg t i c
    have hsplit : ∀ m : ℚ, metricEntries t { i with mvrv := some m } c =
        { analyzeMVRVValuation m c with weight := (TIMEFRAME_WEIGHTS t).mvrv } ::
          restEntriesAfterMvrv t i c := by
      intro m
      rw [metricEntries_mvrv_split]
      simp [entryOpt, hw]
    have hTW : ∀ m : ℚ, totalWeightOf (metricEntries t { i with mvrv := some m } c) =
        (TIMEFRAME_WEIGHTS t).mvrv + totalWeightOf (restEntriesAfterMvrv t i c) := by
      intro m
      rw [hsplit m]
      simp [totalWeightOf]
    have hWS : ∀ m : ℚ, weightedScoreOf (metricEntries t { i with mvrv := some m } c) =
        (analyzeMVRVValuation m c).normalizedScore * (TIMEFRAME_WEIGHTS t).mvrv * 1 +
          weightedScoreOf (restEntriesAfterMvrv t i c) := by
      intro m
      rw [hsplit m]
      simp [weightedScoreOf, analyzeMVRV_confidence]
    have hTpos : 0 < (TIMEFRAME_WEIGHTS t).mvrv +
        totalWeightOf (restEntriesAfterMvrv t i c) := by linarith
    have hmono := analyzeMVRV_mono c h
    simp only [calculateTimeframeAssessment, hTW, hWS]
    rw [if_pos hTpos, if_pos hTpos]
    rw [div_le_div_iff_of_pos_right hTpos]
    nlinarith [mul_le_mul_of_nonneg_right hmono (le_of_lt hwpos)]


/-- Claim C4: the composite score of `calculateValuationRisk` is
monotone nondecreasing in the MVRV input, all other fields fixed, for
every symbol and hence every asset category. -/
theorem C4_composite_mono (i : ValuationInputData) (m₁ m₂ : ℚ) (h : m₁ ≤ m₂) :
    (calculateValuationRisk { i with mvrv := some m₁ }).compositeScore ≤
      (calculateValuationRisk { i with mvrv := some m₂ }).compositeScore := by
  have hcomp : ∀ m : ℚ, (calculateValuationRisk { i with mvrv := some m }).compositeScore =
      (calculateTimeframeAssessment Timeframe.short { i with mvrv := some m }
          (getAssetCategory i.symbol)).overvaluationScore * 0.20 +
      (calculateTimeframeAssessment Timeframe.medium { i with mvrv := some m }
          (getAssetCategory i.symbol)).overvaluationScore * 0.35 +
      (calculateTimeframeAssessment Timeframe.long { i with mvrv := some m }
          (getAssetCategory i.symbol)).overvaluationScore * 0.45 := by
    intro m
    simp only [calculateValuationRisk, COMPOSITE_TIMEFRAME_WEIGHTS]
  have hS := assessment_mvrv_mono Timeframe.short i (getAssetCategory i.symbol) h
  have hM := assessment_mvrv_mono Timeframe.medium i (getAssetCategory i.symbol) h
  have hL := assessment_mvrv_mono Timeframe.long i (getAssetCategory i.symbol) h
  rw [hcomp m₁, hcomp m₂]
  have h2 : (0.20 : ℚ) > 0 := by norm_num
  nlinarith [hS, hM, hL]

/-- Witness for C4 at MVRV 1 versus 3 on a BTC-like input. -/
theorem C4_composite_mono_witness :
    (1 : ℚ) ≤ 3 ∧
    (calculateValuationRisk { c4Input with mvrv := some 1 }).compositeScore ≤
      (calculateValuationRisk { c4Input with mvrv := some 3 }).compositeScore :=
  ⟨by norm_num, C4_composite_mono c4Input 1 3 (by norm_num)⟩


end PortfolioSpec
